import Mathlib

/-!
Verification of the Windows tray-icon backend
(src/platform_impl/windows/mod.rs) against its specification.

The module is shallowly embedded: the message interceptor
`tray_subclass_proc` becomes a pure step function from a message to an
updated `TrayLoopData` together with the ordered list of effects it
performs (OS calls, ownership reclamations, published events); the
facade operations (`TrayIcon::new`, `set_icon`, `set_tooltip`,
`set_visible`, `set_title`, `rect`) become functions parameterized by
the outcomes of the synchronous OS calls they make, returning their
result together with the messages they send to the hidden window.
Tooltip strings are represented by their UTF-16 code-unit lists (the
output of `util::encode_wide`, whose module is not part of the sources
here); coordinates use `Rat` in place of `f64`.
-/

namespace SystemTray

/-- WM_DESTROY. -/
def WM_DESTROY : Nat := 2

/-- WM_LBUTTONUP. -/
def WM_LBUTTONUP : Nat := 514

/-- WM_LBUTTONDBLCLK. -/
def WM_LBUTTONDBLCLK : Nat := 515

/-- WM_RBUTTONUP. -/
def WM_RBUTTONUP : Nat := 517

/-- `ClickType` from the crate root: Left, Right, Double. -/
inductive ClickType where
  | Left
  | Right
  | Double
deriving DecidableEq, Repr

/-- Modelled from the spec: the Geometry/DPI helper (the `util` and `dpi`
modules are not under src/); spec section 4.4: "physical = logical *
scale_factor". -/
def toPhysical (scale : Rat) (v : Rat) : Rat := v * scale

/-- The RECT filled by the OS geometry query (left, top, right, bottom);
all fields are i32. -/
structure WinRect where
  left : Int
  top : Int
  right : Int
  bottom : Int
deriving DecidableEq, Repr

/-- Smallest i32 value. -/
def i32Min : Int := -(2 ^ 31)

/-- Largest i32 value. -/
def i32Max : Int := 2 ^ 31 - 1

/-- `i32::saturating_sub` on values represented as integers. -/
def saturatingSub (a b : Int) : Int := max i32Min (min i32Max (a - b))

/-- Physical `Rect` (position + size), as produced by `get_tray_rect`. -/
structure Rect where
  posX : Rat
  posY : Rat
  sizeW : Rat
  sizeH : Rat
deriving DecidableEq, Repr

/-- `get_tray_rect`: the RECT is zero-initialized, `Shell_NotifyIconGetRect`
is called with its result ignored, and the (possibly still zeroed) RECT is
converted to physical coordinates. `osRect = none` models the query failing
(the tray slot does not exist), in which case the RECT keeps its zeros. -/
def get_tray_rect (osRect : Option WinRect) (scale : Rat) : Rect :=
  let r := osRect.getD ⟨0, 0, 0, 0⟩
  { posX := toPhysical scale (r.left : Rat)
    posY := toPhysical scale (r.top : Rat)
    sizeW := toPhysical scale ((saturatingSub r.right r.left : Int) : Rat)
    sizeH := toPhysical scale ((saturatingSub r.bottom r.top : Int) : Rat) }

/-- `TrayIcon::rect`: reads the window DPI, derives the scale factor, and
returns `Some (get_tray_rect ...)` unconditionally. -/
def TrayIcon.rect (osRect : Option WinRect) (scale : Rat) : Option Rect :=
  some (get_tray_rect osRect scale)

/-- `TrayLoopData` (the spec's TrayState), owned by the hidden window's
subclass storage. Icons and menu handles are opaque; tooltips are UTF-16
code-unit lists. -/
structure TrayLoopData where
  internal_id : Nat
  id : String
  hwnd : Nat
  hpopupmenu : Option Int
  icon : Option Nat
  tooltip : Option (List Nat)
deriving DecidableEq, Repr

/-- `TrayIconEvent` published to the process-wide channel. -/
structure TrayIconEvent where
  id : String
  posX : Rat
  posY : Rat
  icon_rect : Rect
  click_type : ClickType
deriving DecidableEq, Repr

/-- Messages processed by `tray_subclass_proc`. The update messages carry
the id of the boxed payload whose ownership they transfer (the raw pointer
passed as wparam) together with the value it holds. `trayNotify` is
WM_USER_TRAYICON with its lparam sub-code; `otherMsg` is any other message
number (in particular the registered TaskbarCreated broadcast, whose number
RegisterWindowMessage draws from 0xC000-0xFFFF, disjoint from the WM_USER
constants 6002-6007 and WM_DESTROY). -/
inductive TrayMsg where
  | wmDestroy
  | updateMenu (box : Nat) (v : Option Int)
  | updateIcon (box : Nat) (v : Option Nat)
  | showTray
  | hideTray
  | updateTooltip (box : Nat) (v : Option (List Nat))
  | trayNotify (lparam : Nat)
  | otherMsg (m : Nat)
deriving DecidableEq, Repr

/-- Observable effects of one step of the interceptor, in program order. -/
inductive Effect where
  | reclaimTrayData
  | reclaimPayload (box : Nat)
  | registerTray (hwnd iid : Nat) (icon : Option Nat) (tooltip : Option (List Nat))
  | removeTray (hwnd iid : Nat)
  | getCursor
  | sendEvent (e : TrayIconEvent)
  | setForeground (hwnd : Nat)
  | trackPopup (menu : Int) (x y : Int)
  | defProc
deriving DecidableEq, Repr

/-- The environment a step of the interceptor reads from the OS: the cursor
position, the window's current DPI scale factor, the geometry-query result,
and the registered TaskbarCreated message number. -/
structure ProcEnv where
  cursorX : Int
  cursorY : Int
  scale : Rat
  osRect : Option WinRect
  taskbarRestartMsg : Nat
deriving DecidableEq, Repr

/-- Click classification of a recognized WM_USER_TRAYICON sub-code (the
source's match arms WM_LBUTTONUP/WM_RBUTTONUP/WM_LBUTTONDBLCLK; only
evaluated under the guard that the sub-code is one of the three). -/
def classify (lparam : Nat) : ClickType :=
  if lparam = WM_LBUTTONUP then ClickType.Left
  else if lparam = WM_RBUTTONUP then ClickType.Right
  else ClickType.Double

/-- `tray_subclass_proc`, one message step: the updated `TrayLoopData` and
the ordered effects. WM_DESTROY reclaims the TrayLoopData box and returns 0
without calling DefSubclassProc; each update message reclaims exactly the
payload box it carries; show/hide and the TaskbarCreated broadcast call the
registrar with the current state; a WM_USER_TRAYICON notification whose
sub-code is recognized reads the cursor, publishes one event, and for a
right click with a stored popup-menu handle brings the window to the
foreground and tracks the popup at the cursor; everything else only falls
through to DefSubclassProc. -/
def tray_subclass_proc (env : ProcEnv) (d : TrayLoopData) :
    TrayMsg → TrayLoopData × List Effect
  | TrayMsg.wmDestroy => (d, [Effect.reclaimTrayData])
  | TrayMsg.updateMenu b v =>
      ({ d with hpopupmenu := v }, [Effect.reclaimPayload b, Effect.defProc])
  | TrayMsg.updateIcon b v =>
      ({ d with icon := v }, [Effect.reclaimPayload b, Effect.defProc])
  | TrayMsg.showTray =>
      (d, [Effect.registerTray d.hwnd d.internal_id d.icon d.tooltip, Effect.defProc])
  | TrayMsg.hideTray =>
      (d, [Effect.removeTray d.hwnd d.internal_id, Effect.defProc])
  | TrayMsg.updateTooltip b v =>
      ({ d with tooltip := v }, [Effect.reclaimPayload b, Effect.defProc])
  | TrayMsg.trayNotify lp =>
      if lp = WM_LBUTTONUP ∨ lp = WM_RBUTTONUP ∨ lp = WM_LBUTTONDBLCLK then
        let ev : TrayIconEvent :=
          { id := d.id
            posX := toPhysical env.scale (env.cursorX : Rat)
            posY := toPhysical env.scale (env.cursorY : Rat)
            icon_rect := get_tray_rect env.osRect env.scale
            click_type := classify lp }
        if lp = WM_RBUTTONUP then
          match d.hpopupmenu with
          | some m =>
              (d, [Effect.getCursor, Effect.sendEvent ev, Effect.setForeground d.hwnd,
                   Effect.trackPopup m env.cursorX env.cursorY, Effect.defProc])
          | none => (d, [Effect.getCursor, Effect.sendEvent ev, Effect.defProc])
        else (d, [Effect.getCursor, Effect.sendEvent ev, Effect.defProc])
      else (d, [Effect.defProc])
  | TrayMsg.otherMsg m =>
      if m = env.taskbarRestartMsg then
        (d, [Effect.registerTray d.hwnd d.internal_id d.icon d.tooltip, Effect.defProc])
      else (d, [Effect.defProc])

/-- The events published by a list of effects, in order. -/
def eventsOf (effs : List Effect) : List TrayIconEvent :=
  effs.filterMap fun e =>
    match e with
    | Effect.sendEvent ev => some ev
    | _ => none

/-- The popup-display (TrackPopupMenu) calls in a list of effects. -/
def popupsOf (effs : List Effect) : List (Int × Int × Int) :=
  effs.filterMap fun e =>
    match e with
    | Effect.trackPopup m x y => some (m, x, y)
    | _ => none

/-- The payload boxes reclaimed by a list of effects, in order. -/
def freesOf (effs : List Effect) : List Nat :=
  effs.filterMap fun e =>
    match e with
    | Effect.reclaimPayload b => some b
    | _ => none

/-- How many times a list of effects reclaims the TrayLoopData box. -/
def trayDataFrees (effs : List Effect) : Nat :=
  (effs.filter fun e => e = Effect.reclaimTrayData).length

/-- Run the interceptor over a queue of messages in order, accumulating
effects. -/
def runProc (env : ProcEnv) (d : TrayLoopData) :
    List TrayMsg → TrayLoopData × List Effect
  | [] => (d, [])
  | m :: ms =>
      let s1 := tray_subclass_proc env d m
      let s2 := runProc env s1.1 ms
      (s2.1, s1.2 ++ s2.2)

/-- The public facade handle (`TrayIcon`): window handle, internal id, and
the held menu capability (kept as its popup handle). -/
structure TrayIconCtl where
  hwnd : Nat
  internal_id : Nat
  menuHandle : Option Int
deriving DecidableEq, Repr

/-- `crate::Error::OsError`. -/
inductive OsError where
  | osError
deriving DecidableEq, Repr

/-- `TrayIcon::set_icon`: builds a NOTIFYICONDATAW with NIF_ICON and calls
`Shell_NotifyIconW(NIM_MODIFY)` synchronously (outcome `modifyOk`). On
failure it returns an OS error before any message is sent; on success it
sends WM_USER_UPDATE_TRAYICON carrying the boxed new icon. -/
def TrayIcon.set_icon (modifyOk : Bool) (box : Nat) (icon : Option Nat) :
    Except OsError Unit × List TrayMsg :=
  if modifyOk then (Except.ok (), [TrayMsg.updateIcon box icon])
  else (Except.error OsError.osError, [])

/-- The szTip buffer written by `set_tooltip` and `register_tray_icon`:
128 slots initialized to 0, then `for i in 0..tip.len().min(128)
{ szTip[i] = tip[i] }`, so slot i holds `tip[i]` when i < tip.length and
0 otherwise. -/
def szTipOf (tip : List Nat) : List Nat :=
  (List.range 128).map fun i => tip.getD i 0

/-- `TrayIcon::set_tooltip`: encodes the tooltip into the fixed 128-slot
szTip buffer (truncating), calls `Shell_NotifyIconW(NIM_MODIFY)` (outcome
`modifyOk`); on failure returns an OS error before any message is sent; on
success sends WM_USER_UPDATE_TRAYTOOLTIP carrying the boxed new tooltip.
Returns (result, messages sent, szTip buffer used). -/
def TrayIcon.set_tooltip (modifyOk : Bool) (box : Nat)
    (tooltip : Option (List Nat)) :
    Except OsError Unit × List TrayMsg × List Nat :=
  let buf :=
    match tooltip with
    | some tip => szTipOf tip
    | none => List.replicate 128 0
  if modifyOk then (Except.ok (), [TrayMsg.updateTooltip box tooltip], buf)
  else (Except.error OsError.osError, [], buf)

/-- `TrayIcon::set_title`: the body is empty — it returns Unit (it cannot
fail), makes no OS call and sends no message. Modelled with explicit
outputs for the (absent) messages and effects. -/
def TrayIcon.set_title (self : TrayIconCtl) (_title : Option String) :
    TrayIconCtl × List TrayMsg × List Effect :=
  (self, [], [])

/-- `TrayIcon::set_visible`: sends WM_USER_SHOW_TRAYICON or
WM_USER_HIDE_TRAYICON and returns Ok. -/
def TrayIcon.set_visible (visible : Bool) : Except OsError Unit × List TrayMsg :=
  (Except.ok (), [if visible then TrayMsg.showTray else TrayMsg.hideTray])

/-- Outcome of `TrayIcon::new`: its return value, the windows it created
and did not destroy by the time it returned, whether an OS tray slot ended
up registered, and the TrayLoopData transferred into the window's subclass
storage (if any). -/
structure NewOutcome where
  result : Except OsError TrayIconCtl
  liveWindows : List Nat
  slotRegistered : Bool
  trayStateTransferred : Option TrayLoopData
deriving Repr

/-- `TrayIcon::new` under an outcome oracle: `createOk` is whether
`CreateWindowExW` returns a nonzero handle, `addOk` whether
`register_tray_icon` (i.e. `Shell_NotifyIconW(NIM_ADD)`) returns true. On
window-creation failure it returns an OS error with nothing created; on
registration failure it returns an OS error without building or
transferring a TrayLoopData and with no slot registered, but the created
window is not destroyed; on success it transfers exactly one TrayLoopData
into the subclass storage and returns the facade handle. -/
def TrayIcon.new (createOk addOk : Bool) (hwnd iid : Nat) (id : String)
    (icon : Option Nat) (tooltip : Option (List Nat)) (menuHandle : Option Int) :
    NewOutcome :=
  if createOk = false then
    { result := Except.error OsError.osError, liveWindows := [],
      slotRegistered := false, trayStateTransferred := none }
  else if addOk = false then
    { result := Except.error OsError.osError, liveWindows := [hwnd],
      slotRegistered := false, trayStateTransferred := none }
  else
    { result := Except.ok { hwnd := hwnd, internal_id := iid, menuHandle := menuHandle }
      liveWindows := [hwnd]
      slotRegistered := true
      trayStateTransferred := some
        { internal_id := iid, id := id, hwnd := hwnd, hpopupmenu := menuHandle,
          icon := icon, tooltip := tooltip } }

/-- A facade mutation issued during the controller's lifetime, with the
outcome of its synchronous OS call where it makes one. -/
inductive FacadeOp where
  | opSetIcon (ok : Bool) (icon : Option Nat)
  | opSetTooltip (ok : Bool) (tip : Option (List Nat))
  | opSetMenu (m : Option Int)
  | opSetVisible (v : Bool)
  | opSetTitle
deriving DecidableEq, Repr

/-- The messages one facade operation sends, drawing fresh box ids from
`b` (each `Box::into_raw` produces a distinct pointer): `set_icon` and
`set_tooltip` box a payload only when their synchronous OS call succeeded,
`set_menu` always boxes the new handle, `set_visible` and `set_title` box
nothing. Returns the messages and the next fresh id. -/
def opMsgs (b : Nat) : FacadeOp → List TrayMsg × Nat
  | FacadeOp.opSetIcon ok icon =>
      if ok then ([TrayMsg.updateIcon b icon], b + 1) else ([], b)
  | FacadeOp.opSetTooltip ok tip =>
      if ok then ([TrayMsg.updateTooltip b tip], b + 1) else ([], b)
  | FacadeOp.opSetMenu m => ([TrayMsg.updateMenu b m], b + 1)
  | FacadeOp.opSetVisible v =>
      ([if v then TrayMsg.showTray else TrayMsg.hideTray], b)
  | FacadeOp.opSetTitle => ([], b)

/-- The message queue produced by a sequence of facade operations, in send
order, with box ids allocated from `b` on. -/
def traceMsgs (b : Nat) : List FacadeOp → List TrayMsg
  | [] => []
  | op :: ops => (opMsgs b op).1 ++ traceMsgs (opMsgs b op).2 ops

/-- The payload box a message carries, if any. -/
def boxOf : TrayMsg → Option Nat
  | TrayMsg.updateMenu b _ => some b
  | TrayMsg.updateIcon b _ => some b
  | TrayMsg.updateTooltip b _ => some b
  | _ => none

/-- All payload boxes allocated into a message queue, in order. -/
def allocsOf (ms : List TrayMsg) : List Nat := ms.filterMap boxOf

/-- How many payload boxes one facade operation allocates (one per
`Box::into_raw` it executes). -/
def allocCount : FacadeOp → Nat
  | FacadeOp.opSetIcon ok _ => if ok then 1 else 0
  | FacadeOp.opSetTooltip ok _ => if ok then 1 else 0
  | FacadeOp.opSetMenu _ => 1
  | FacadeOp.opSetVisible _ => 0
  | FacadeOp.opSetTitle => 0

/-- Total number of payload boxes a sequence of facade operations
allocates. -/
def allocCountL : List FacadeOp → Nat
  | [] => 0
  | op :: ops => allocCount op + allocCountL ops

/-- One interceptor step reclaims exactly the payload box its message
carries: the box for the three update messages, nothing for any other
message. -/
lemma freesOf_step (env : ProcEnv) (d : TrayLoopData) (m : TrayMsg) :
    freesOf (tray_subclass_proc env d m).2 = (boxOf m).toList := by
  cases m with
  | trayNotify lp =>
      simp only [tray_subclass_proc, boxOf, Option.toList]
      split
      · split
        · split <;> rfl
        · rfl
      · rfl
  | otherMsg m2 =>
      simp only [tray_subclass_proc]
      split <;> rfl
  | _ => rfl

/-- One interceptor step reclaims the TrayLoopData box exactly on
WM_DESTROY and never otherwise. -/
lemma trayDataFrees_step (env : ProcEnv) (d : TrayLoopData) (m : TrayMsg) :
    trayDataFrees (tray_subclass_proc env d m).2
      = if m = TrayMsg.wmDestroy then 1 else 0 := by
  cases m with
  | trayNotify lp =>
      simp only [tray_subclass_proc]
      split
      · split
        · split <;> rfl
        · rfl
      · rfl
  | otherMsg m2 =>
      simp only [tray_subclass_proc]
      split <;> rfl
  | _ => rfl

/-- `freesOf` distributes over effect concatenation. -/
lemma freesOf_append (a b : List Effect) :
    freesOf (a ++ b) = freesOf a ++ freesOf b := by
  simp [freesOf, List.filterMap_append]

/-- `trayDataFrees` adds over effect concatenation. -/
lemma trayDataFrees_append (a b : List Effect) :
    trayDataFrees (a ++ b) = trayDataFrees a + trayDataFrees b := by
  simp [trayDataFrees, List.filter_append]

/-- Running the interceptor over a message queue reclaims exactly the
payload boxes carried by the queue, in queue order. -/
lemma runProc_frees (env : ProcEnv) (ms : List TrayMsg) :
    ∀ d, freesOf (runProc env d ms).2 = allocsOf ms := by
  induction ms with
  | nil => intro d; rfl
  | cons m ms ih =>
      intro d
      simp only [runProc]
      rw [freesOf_append, freesOf_step, ih]
      cases hb : boxOf m <;> simp [allocsOf, List.filterMap_cons, hb]

/-- Running the interceptor over a message queue reclaims the TrayLoopData
box once per WM_DESTROY in the queue. -/
lemma runProc_trayDataFrees (env : ProcEnv) (ms : List TrayMsg) :
    ∀ d, trayDataFrees (runProc env d ms).2
      = (ms.filter fun m => m = TrayMsg.wmDestroy).length := by
  induction ms with
  | nil => intro d; rfl
  | cons m ms ih =>
      intro d
      simp only [runProc]
      rw [trayDataFrees_append, trayDataFrees_step, ih]
      by_cases hm : m = TrayMsg.wmDestroy <;>
        simp [hm, List.filter_cons, Nat.add_comm]

/-- The facade never sends WM_DESTROY itself: only DestroyWindow during the
controller's drop produces it. -/
lemma traceMsgs_no_destroy (ops : List FacadeOp) :
    ∀ b, ((traceMsgs b ops).filter fun m => m = TrayMsg.wmDestroy) = [] := by
  induction ops with
  | nil => intro b; rfl
  | cons op ops ih =>
      intro b
      simp only [traceMsgs, List.filter_append, ih, List.append_nil]
      cases op with
      | opSetIcon ok icon => cases ok <;> rfl
      | opSetTooltip ok tip => cases ok <;> rfl
      | opSetMenu m => rfl
      | opSetVisible v => cases v <;> rfl
      | opSetTitle => rfl

/-- `allocsOf` distributes over queue concatenation. -/
lemma allocsOf_append (a b : List TrayMsg) :
    allocsOf (a ++ b) = allocsOf a ++ allocsOf b := by
  simp [allocsOf, List.filterMap_append]

/-- The payload boxes allocated along a facade trace are the consecutive
ids starting at the first fresh id — in particular pairwise distinct. -/
lemma allocsOf_traceMsgs (ops : List FacadeOp) :
    ∀ b, allocsOf (traceMsgs b ops) = List.range' b (allocCountL ops) := by
  induction ops with
  | nil => intro b; rfl
  | cons op ops ih =>
      intro b
      rw [show traceMsgs b (op :: ops)
            = (opMsgs b op).1 ++ traceMsgs (opMsgs b op).2 ops from rfl,
        allocsOf_append]
      cases op with
      | opSetIcon ok icon =>
          cases ok
          · simpa [allocsOf, allocCountL, allocCount, opMsgs] using ih b
          · show allocsOf [TrayMsg.updateIcon b icon]
                ++ allocsOf (traceMsgs (b + 1) ops)
              = List.range' b (1 + allocCountL ops)
            rw [Nat.add_comm 1 (allocCountL ops), List.range'_succ,
              show allocsOf [TrayMsg.updateIcon b icon] = [b] from rfl,
              ih (b + 1), List.singleton_append]
      | opSetTooltip ok tip =>
          cases ok
          · simpa [allocsOf, allocCountL, allocCount, opMsgs] using ih b
          · show allocsOf [TrayMsg.updateTooltip b tip]
                ++ allocsOf (traceMsgs (b + 1) ops)
              = List.range' b (1 + allocCountL ops)
            rw [Nat.add_comm 1 (allocCountL ops), List.range'_succ,
              show allocsOf [TrayMsg.updateTooltip b tip] = [b] from rfl,
              ih (b + 1), List.singleton_append]
      | opSetMenu m =>
          show allocsOf [TrayMsg.updateMenu b m]
              ++ allocsOf (traceMsgs (b + 1) ops)
            = List.range' b (1 + allocCountL ops)
          rw [Nat.add_comm 1 (allocCountL ops), List.range'_succ,
            show allocsOf [TrayMsg.updateMenu b m] = [b] from rfl,
            ih (b + 1), List.singleton_append]
      | opSetVisible v =>
          cases v <;>
            simpa [allocsOf, allocCountL, allocCount, opMsgs, boxOf] using ih b
      | opSetTitle =>
          simpa [allocsOf, allocCountL, allocCount, opMsgs] using ih b

/-- `saturating_sub 0 0 = 0`. -/
lemma saturatingSub_zero : saturatingSub 0 0 = 0 := by
  simp [saturatingSub, i32Min, i32Max]

/-- C1: when the OS tray slot does not currently exist (for example after a
hide request removed the registration), the geometry query fails and leaves
the zero-initialized RECT, so `rect()` returns the empty (zero-position,
zero-size) rectangle — never a populated one — at every DPI scale factor.
(The code wraps it in `some`; the "empty result" is the zero rect, as in
spec section 4.3.) -/
theorem rect_absent_slot_is_empty :
    ∀ scale : Rat,
    TrayIcon.rect none scale
      = some { posX := 0, posY := 0, sizeW := 0, sizeH := 0 } := by
  intro scale
  simp [TrayIcon.rect, get_tray_rect, toPhysical, saturatingSub_zero]

/-- C2: when the synchronous `Shell_NotifyIconW(NIM_MODIFY)` call fails,
`set_icon` and `set_tooltip` return an OS error to the caller and send no
asynchronous TrayState-update message at all, so running the (empty) batch
of sent messages leaves every `TrayLoopData` field at its previous value. -/
theorem set_icon_tooltip_failure_leaves_state :
    ∀ (env : ProcEnv) (d : TrayLoopData) (b bT : Nat) (icon : Option Nat)
      (tip : Option (List Nat)),
    (TrayIcon.set_icon false b icon).1 = Except.error OsError.osError
  ∧ (TrayIcon.set_icon false b icon).2 = []
  ∧ (TrayIcon.set_tooltip false bT tip).1 = Except.error OsError.osError
  ∧ (TrayIcon.set_tooltip false bT tip).2.1 = []
  ∧ (runProc env d (TrayIcon.set_icon false b icon).2).1 = d
  ∧ (runProc env d (TrayIcon.set_tooltip false bT tip).2.1).1 = d := by
  intro env d b bT icon tip
  exact ⟨rfl, rfl, rfl, rfl, rfl, rfl⟩

/-- C3 counterexample: a creation attempt where `CreateWindowExW` succeeds
(window handle 7) but `Shell_NotifyIconW(NIM_ADD)` fails. `TrayIcon::new`
returns an OS error, allocates no TrayState and registers no slot, but the
already-created hidden window is not destroyed: `liveWindows = [7] ≠ []`,
contradicting "creation is atomic: either a fully constructed controller or
no partial state". -/
theorem new_registration_failure_leaves_window :
    ((TrayIcon.new true false 7 1 "tray" (some 3) (some [104]) none).result
        = Except.error OsError.osError)
  ∧ (TrayIcon.new true false 7 1 "tray" (some 3) (some [104])
      none).trayStateTransferred = none
  ∧ (TrayIcon.new true false 7 1 "tray" (some 3) (some [104])
      none).slotRegistered = false
  ∧ (TrayIcon.new true false 7 1 "tray" (some 3) (some [104])
      none).liveWindows = [7]
  ∧ (TrayIcon.new true false 7 1 "tray" (some 3) (some [104])
      none).liveWindows ≠ [] :=
  ⟨rfl, rfl, rfl, rfl, by decide⟩

/-- C3 amended: on window-creation failure `TrayIcon::new` returns an OS
error with nothing created, registered or transferred; on registration
failure it returns an OS error with no TrayState allocated or transferred
and no OS tray slot registered, but the already-created hidden window
remains (it is not destroyed), so creation is not fully atomic. -/
theorem new_failure_no_traystate_no_slot :
    ∀ (addOk : Bool) (hwnd iid : Nat) (id : String) (icon : Option Nat)
      (tooltip : Option (List Nat)) (mh : Option Int),
    TrayIcon.new false addOk hwnd iid id icon tooltip mh
      = { result := Except.error OsError.osError, liveWindows := [],
          slotRegistered := false, trayStateTransferred := none }
  ∧ TrayIcon.new true false hwnd iid id icon tooltip mh
      = { result := Except.error OsError.osError, liveWindows := [hwnd],
          slotRegistered := false, trayStateTransferred := none } := by
  intro addOk hwnd iid id icon tooltip mh
  exact ⟨rfl, rfl⟩

/-- C7: a TaskbarCreated broadcast (whose registered message number lies in
0xC000-0xFFFF, hence 49152 ≤ it) makes the interceptor re-run OS tray
registration with TrayState's current (last-known) icon and tooltip,
leaving the state unchanged and requiring no caller action. -/
theorem taskbar_restart_reregisters :
    ∀ (env : ProcEnv) (d : TrayLoopData),
    49152 ≤ env.taskbarRestartMsg →
    tray_subclass_proc env d (TrayMsg.otherMsg env.taskbarRestartMsg)
      = (d, [Effect.registerTray d.hwnd d.internal_id d.icon d.tooltip,
             Effect.defProc]) := by
  intro env d _
  simp [tray_subclass_proc]

/-- Witness for C7 at a concrete environment and state. -/
theorem taskbar_restart_reregisters_witness :
    49152 ≤ (49281 : Nat)
  ∧ tray_subclass_proc
      { cursorX := 0, cursorY := 0, scale := 1, osRect := none,
        taskbarRestartMsg := 49281 }
      { internal_id := 1, id := "tray", hwnd := 2, hpopupmenu := none,
        icon := some 5, tooltip := some [104, 105] }
      (TrayMsg.otherMsg 49281)
      = ({ internal_id := 1, id := "tray", hwnd := 2, hpopupmenu := none,
           icon := some 5, tooltip := some [104, 105] },
         [Effect.registerTray 2 1 (some 5) (some [104, 105]), Effect.defProc]) :=
  ⟨by decide,
   taskbar_restart_reregisters
     { cursorX := 0, cursorY := 0, scale := 1, osRect := none,
       taskbarRestartMsg := 49281 }
     { internal_id := 1, id := "tray", hwnd := 2, hpopupmenu := none,
       icon := some 5, tooltip := some [104, 105] }
     (by decide)⟩

/-- C9: a hide request makes the interceptor remove the OS registration for
exactly this window and internal id while returning the `TrayLoopData`
unchanged (every field — internal id, TrayIconId, window handle, popup-menu
handle, icon, tooltip — retains its value), and a later show request on that
retained state re-registers with the retained icon and tooltip. -/
theorem hide_request_removes_slot_preserves_state :
    ∀ (env env2 : ProcEnv) (d : TrayLoopData),
    tray_subclass_proc env d TrayMsg.hideTray
      = (d, [Effect.removeTray d.hwnd d.internal_id, Effect.defProc])
  ∧ tray_subclass_proc env2 (tray_subclass_proc env d TrayMsg.hideTray).1
      TrayMsg.showTray
      = (d, [Effect.registerTray d.hwnd d.internal_id d.icon d.tooltip,
             Effect.defProc]) := by
  intro env env2 d
  exact ⟨rfl, rfl⟩

/-- C4: a successful creation builds exactly one TrayLoopData and transfers
it into the window's subclass storage once; then, over any sequence of
facade mutations followed by the controller's destruction (DestroyWindow
delivers WM_DESTROY after all previously queued messages), the interceptor
reclaims exactly the boxed mutation payloads that were sent — in send
order, each exactly once, the allocated box ids being pairwise distinct —
and reclaims the TrayLoopData box exactly once: no double-free, no leak. -/
theorem tray_state_reclaimed_exactly_once :
    ∀ (env : ProcEnv) (d : TrayLoopData) (b0 : Nat) (ops : List FacadeOp),
    trayDataFrees (runProc env d (traceMsgs b0 ops ++ [TrayMsg.wmDestroy])).2 = 1
  ∧ freesOf (runProc env d (traceMsgs b0 ops ++ [TrayMsg.wmDestroy])).2
      = allocsOf (traceMsgs b0 ops)
  ∧ (allocsOf (traceMsgs b0 ops)).Nodup
  ∧ (∀ (hwnd iid : Nat) (id : String) (icon : Option Nat)
        (tooltip : Option (List Nat)) (mh : Option Int),
      (TrayIcon.new true true hwnd iid id icon tooltip mh).trayStateTransferred
        = some { internal_id := iid, id := id, hwnd := hwnd, hpopupmenu := mh,
                 icon := icon, tooltip := tooltip }) := by
  intro env d b0 ops
  refine ⟨?_, ?_, ?_, ?_⟩
  · rw [runProc_trayDataFrees, List.filter_append, traceMsgs_no_destroy]
    rfl
  · rw [runProc_frees, allocsOf_append]
    simp [allocsOf, boxOf]
  · rw [allocsOf_traceMsgs]
    exact List.nodup_range' b0 (allocCountL ops)
  · intro hwnd iid id icon tooltip mh
    rfl

/-- C5: a WM_USER_TRAYICON notification publishes a TrayIconEvent if and
only if its lparam sub-code is one of the three recognized codes, and then
exactly one event, classified Left for left-up, Right for right-up and
Double for left-double-click, carrying the current cursor position (DPI
normalized to physical coordinates) and the tray slot's current physical
Rect; every other sub-code publishes nothing. -/
theorem click_notification_classification :
    ∀ (env : ProcEnv) (d : TrayLoopData) (lp : Nat),
    (eventsOf (tray_subclass_proc env d (TrayMsg.trayNotify lp)).2
      = if lp = WM_LBUTTONUP ∨ lp = WM_RBUTTONUP ∨ lp = WM_LBUTTONDBLCLK then
          [{ id := d.id
             posX := toPhysical env.scale (env.cursorX : Rat)
             posY := toPhysical env.scale (env.cursorY : Rat)
             icon_rect := get_tray_rect env.osRect env.scale
             click_type := classify lp }]
        else [])
  ∧ classify WM_LBUTTONUP = ClickType.Left
  ∧ classify WM_RBUTTONUP = ClickType.Right
  ∧ classify WM_LBUTTONDBLCLK = ClickType.Double := by
  intro env d lp
  refine ⟨?_, by decide, by decide, by decide⟩
  by_cases h : lp = WM_LBUTTONUP ∨ lp = WM_RBUTTONUP ∨ lp = WM_LBUTTONDBLCLK
  · by_cases h2 : lp = WM_RBUTTONUP
    · cases hm : d.hpopupmenu <;>
        simp [tray_subclass_proc, h, h2, hm, eventsOf, WM_LBUTTONUP,
          WM_RBUTTONUP, WM_LBUTTONDBLCLK]
    · by_cases h3 : lp = WM_LBUTTONUP
      · simp [tray_subclass_proc, h, h2, h3, eventsOf, WM_LBUTTONUP,
          WM_RBUTTONUP, WM_LBUTTONDBLCLK]
      · have h4 : lp = WM_LBUTTONDBLCLK := by tauto
        simp [tray_subclass_proc, h, h2, h3, h4, eventsOf, WM_LBUTTONUP,
          WM_RBUTTONUP, WM_LBUTTONDBLCLK]
  · simp [tray_subclass_proc, h, eventsOf]

/-- C6: a right-click notification always publishes exactly one
TrayIconEvent; when a popup-menu handle is stored in TrayState it
additionally brings the hidden window to the foreground and makes exactly
one popup-display (TrackPopupMenu) call at the cursor, and when none is
stored it makes no popup-display call. -/
theorem right_click_popup_calls :
    ∀ (env : ProcEnv) (d : TrayLoopData),
    ((eventsOf (tray_subclass_proc env d (TrayMsg.trayNotify WM_RBUTTONUP)).2).length
        = 1)
  ∧ (match d.hpopupmenu with
     | some m =>
         popupsOf (tray_subclass_proc env d (TrayMsg.trayNotify WM_RBUTTONUP)).2
             = [(m, env.cursorX, env.cursorY)]
         ∧ Effect.setForeground d.hwnd
             ∈ (tray_subclass_proc env d (TrayMsg.trayNotify WM_RBUTTONUP)).2
     | none =>
         popupsOf (tray_subclass_proc env d (TrayMsg.trayNotify WM_RBUTTONUP)).2
             = []) := by
  intro env d
  cases hm : d.hpopupmenu <;>
    simp [tray_subclass_proc, hm, eventsOf, popupsOf, WM_RBUTTONUP,
      WM_LBUTTONUP, WM_LBUTTONDBLCLK]

/-- The szTip buffer is the first 128 code units of the encoded tooltip,
padded with zeros. -/
lemma szTipOf_eq_take_pad (tip : List Nat) :
    szTipOf tip = tip.take 128 ++ List.replicate (128 - min tip.length 128) 0 := by
  apply List.ext_getElem
  · simp [szTipOf]
    omega
  · intro i h1 h2
    have h128 : i < 128 := by simpa [szTipOf] using h1
    simp only [szTipOf, List.getElem_map, List.getElem_range]
    by_cases hi : i < tip.length
    · have hlt : i < (tip.take 128).length := by
        simp only [List.length_take]
        omega
      rw [List.getElem_append_left hlt, List.getElem_take]
      exact List.getD_eq_getElem tip 0 hi
    · have hge : (tip.take 128).length ≤ i := by
        simp only [List.length_take]
        omega
      rw [List.getElem_append_right hge, List.getElem_replicate]
      exact List.getD_eq_default tip 0 (by omega)

/-- C8: for every encoded tooltip (in particular any longer than the
128-code-unit platform buffer), `set_tooltip` writes exactly the first
128 code units into the fixed zero-padded szTip buffer — truncation, not
rejection — and returns success whenever the synchronous OS call succeeds. -/
theorem set_tooltip_truncates_and_succeeds :
    ∀ (tip : List Nat) (b : Nat),
    (TrayIcon.set_tooltip true b (some tip)).1 = Except.ok ()
  ∧ (TrayIcon.set_tooltip true b (some tip)).2.2
      = tip.take 128 ++ List.replicate (128 - min tip.length 128) 0
  ∧ ((TrayIcon.set_tooltip true b (some tip)).2.2).length = 128 := by
  intro tip b
  refine ⟨rfl, ?_, ?_⟩
  · simpa [TrayIcon.set_tooltip] using szTipOf_eq_take_pad tip
  · simp [TrayIcon.set_tooltip, szTipOf]

/-- C10: `set_title` is a no-op for every input: it cannot fail (it returns
Unit), makes no OS call, sends no message, and leaves the controller (and
hence TrayState) completely unchanged. -/
theorem set_title_is_noop :
    ∀ (s : TrayIconCtl) (t : Option String),
    TrayIcon.set_title s t = (s, [], []) := by
  intro s t
  rfl

end SystemTray
